import Mathlib

/-!
Verification of the resilient extraction and pagination engine of this
repository against its specification.  The development shallowly embeds the
two scraper scripts:

* `ebay_reisegitarren_scraper.py` (namespace `Reise`): selector-chain
  resolution (`find_first_text`, `find_first_attr`), identifier derivation
  (`extract_item_id_from_url`), consent dismissal
  (`dismiss_cookie_banner`) and the per-page extraction loop
  (`scrape_first_page`).
* `Scraping/e_bay_scraping.py` (namespace `Tmpl`): field extraction
  (`extract_field_from_element`), page scraping (`scrape_page`), URL
  construction (`build_url_for_page`), next-button handling (`click_next`)
  and the pagination loop of `main` in both modes.

Live-browser effects (navigation, waits, clicks, logging, debug dumps) are
modelled by total data: an element is a record of its text and attributes, a
page is the list of listing elements the driver would enumerate (or `none`
when the presence wait times out), and a click is a boolean outcome.
Python strings are Lean `String`s, but the Python primitives
(`str.strip`, `str.split`, `str.lower`, substring containment, `re.search`)
are re-implemented as structural functions over `List Char` so that every
definition evaluates inside the kernel.
-/

/-- Python whitespace for `str.strip()`: space, tab, newline, carriage
return, vertical tab, form feed. -/
def isPySpace (c : Char) : Bool :=
  c = ' ' || c = '\t' || c = '\n' || c = '\r' || c = '\x0b' || c = '\x0c'

/-- Python `s.strip()`: drop leading and trailing whitespace. -/
def pyStrip (s : String) : String :=
  String.mk (((s.toList.dropWhile isPySpace).reverse.dropWhile isPySpace).reverse)

/-- Split a character list at every occurrence of the separator character;
always returns at least one (possibly empty) piece, like Python `str.split`
with an explicit separator. -/
def splitCharList (sep : Char) : List Char → List (List Char)
  | [] => [[]]
  | c :: cs =>
    let r := splitCharList sep cs
    if c = sep then [] :: r
    else
      match r with
      | [] => [[c]]
      | h :: t => (c :: h) :: t

/-- Python `s.split(sep)` for a one-character separator. -/
def pySplit (s : String) (sep : Char) : List String :=
  (splitCharList sep s.toList).map String.mk

/-- Python `s.lower()` (ASCII case folding suffices for the inputs here). -/
def pyLower (s : String) : String :=
  String.mk (s.toList.map Char.toLower)

/-- Python `needle in hay` substring containment. -/
def strContains (hay needle : String) : Bool :=
  hay.toList.tails.any (fun t => needle.toList.isPrefixOf t)

namespace Reise

/-- A located DOM element, as the scraper observes it: its rendered text and
its attribute table (`get_attribute` returns `None` for an absent
attribute, modelled as `none`). -/
structure Elem where
  text : String
  attr : String → Option String

/-- A listing element scope (an `item` WebElement): `find` models
`item.find_element(By.CSS_SELECTOR, sel)`, returning the first matching
descendant or `none` when `NoSuchElementException` is raised; `text` is the
scope's full rendered text (`item.text`). -/
structure Scope where
  find : String → Option Elem
  text : String

/-- Configured selector chains of `ebay_reisegitarren_scraper.py`. -/
def TITLE_SELECTOR : String := "h3.s-item__title, .s-item__title, .brwrvr__title, h3"

/-- Configured price selector chain. -/
def PRICE_SELECTOR : String :=
  "span.s-item__price, .s-item__price, .brwrvr__price, span[aria-label*=\x27Preis\x27], div.s-item__detail span, bsig__price, span.bsig__price, span.bsig__price--display"

/-- Configured link selector chain. -/
def LINK_SELECTOR : String := "a.s-item__link, a[href*=\x27/itm/\x27], a"

/-- Configured per-page item ceiling (`MAX_ITEMS = 500`). -/
def MAX_ITEMS : Nat := 500

/-- Loop body of `find_first_text` over the already-split selector
alternatives: skip blank alternatives, return the first stripped non-empty
element text, else the empty string. -/
def goText (item : Scope) : List String → String
  | [] => ""
  | sel :: rest =>
    let s := pyStrip sel
    if s = "" then goText item rest
    else
      match item.find s with
      | none => goText item rest
      | some el =>
        let text := pyStrip el.text
        if text ≠ "" then text else goText item rest

/-- Embeds `find_first_text(item, selectors)` (lines 147-163): split the
comma-separated alternatives and return the first non-empty stripped text. -/
def find_first_text (item : Scope) (selectors : String) : String :=
  goText item (pySplit selectors ',')

/-- Loop body of `find_first_attr`: first truthy attribute value wins. -/
def goAttr (item : Scope) (attrName : String) : List String → String
  | [] => ""
  | sel :: rest =>
    let s := pyStrip sel
    if s = "" then goAttr item attrName rest
    else
      match item.find s with
      | none => goAttr item attrName rest
      | some el =>
        match el.attr attrName with
        | some v => if v ≠ "" then v else goAttr item attrName rest
        | none => goAttr item attrName rest

/-- Embeds `find_first_attr(item, selectors, attr)` (lines 166-181). -/
def find_first_attr (item : Scope) (selectors : String) (attrName : String) : String :=
  goAttr item attrName (pySplit selectors ',')

/-- Specification-side description of one alternative's outcome: `some t`
when the (stripped) alternative is non-blank, matches an element of the
scope, and that element's stripped text is non-empty. -/
def textHit (item : Scope) (sel : String) : Option String :=
  let s := pyStrip sel
  if s = "" then none
  else
    match item.find s with
    | none => none
    | some el =>
      let t := pyStrip el.text
      if t = "" then none else some t

/-- Maximal digit run at the head of a character list (the greedy
\x7bdigit\x7d-quantifier of the regex; `\d` is modelled as an ASCII digit,
which the URL inputs here are). -/
def takeDigits : List Char → List Char
  | [] => []
  | c :: cs => if c.isDigit then c :: takeDigits cs else []

/-- Matching a greedy digit run of length at least six at the head of the
list: the captured run, or `none`. -/
def matchDigits6 (s : List Char) : Option (List Char) :=
  let run := takeDigits s
  if 6 ≤ run.length then some run else none

/-- Backtracking order of the optional lazy group in
`/itm/(?:.*?/)?(\d\x7b6,\x7d)` right after the marker: the lazy `.*?`
expands left to right (never across a newline, which `.` cannot match), so
the first slash whose remainder starts with a six-digit run wins; if no
expansion succeeds the optional group is skipped and the digit run must
start immediately. -/
def withGroup : List Char → Option (List Char)
  | [] => none
  | c :: cs =>
    if c = '/' then
      match matchDigits6 cs with
      | some r => some r
      | none => withGroup cs
    else if c = '\n' then none
    else withGroup cs

/-- Matching `(?:.*?/)?(\d\x7b6,\x7d)` at the start of `s`: the greedy `?`
tries the group first, then falls back to skipping it. -/
def matchAfterItm (s : List Char) : Option (List Char) :=
  match withGroup s with
  | some r => some r
  | none => matchDigits6 s

/-- Leftmost search of `re.search(r"/itm/(?:.*?/)?(\d\x7b6,\x7d)", url)`:
scan start positions left to right; at each occurrence of the marker
`/itm/` try the tail pattern. -/
def searchItm : List Char → Option (List Char)
  | [] => none
  | c :: cs =>
    if (c :: cs).take 5 = ['/', 'i', 't', 'm', '/'] then
      match matchAfterItm ((c :: cs).drop 5) with
      | some r => some r
      | none => searchItm cs
    else searchItm cs

/-- Leftmost search of `re.search(r"(\d\x7b6,\x7d)", url)`: the first
position where a digit run of length at least six starts. -/
def searchDigits6 : List Char → Option (List Char)
  | [] => none
  | c :: cs =>
    match matchDigits6 (c :: cs) with
    | some r => some r
    | none => searchDigits6 cs

/-- Embeds `extract_item_id_from_url(url)` (lines 184-195): empty URL gives
`""`; otherwise stage 1 searches for a digit run anchored after `/itm/`,
stage 2 for the first digit run of length at least six anywhere, and the
result is `""` when both fail. -/
def extract_item_id_from_url (url : String) : String :=
  if url = "" then ""
  else
    match searchItm url.toList with
    | some r => String.mk r
    | none =>
      match searchDigits6 url.toList with
      | some r => String.mk r
      | none => ""

/-- Specification-side predicate: some position of the list starts a run of
at least six consecutive ASCII digits. -/
def hasSixDigitRun : List Char → Bool
  | [] => false
  | c :: cs =>
    (((c :: cs).take 6).length == 6 && ((c :: cs).take 6).all Char.isDigit) || hasSixDigitRun cs

/-- A listing record as written to the CSV: id, title, price, link. -/
structure ListingRecord where
  id : String
  title : String
  price : String
  link : String
deriving DecidableEq, Repr

/-- Field extraction for one listing element (lines 257-267 of
`scrape_first_page`): link attribute, chain title with first-text-line
fallback, chain price, id derived from the link. -/
def extract_record (item : Scope) : ListingRecord :=
  let href := find_first_attr item LINK_SELECTOR "href"
  let title0 := find_first_text item TITLE_SELECTOR
  let price := find_first_text item PRICE_SELECTOR
  let item_id := extract_item_id_from_url href
  let title :=
    if title0 = "" then pyStrip (((pySplit item.text '\n').headD ""))
    else title0
  { id := item_id, title := title, price := price, link := href }

/-- Collection loop of `scrape_first_page` (lines 252-276): stop when
`MAX_ITEMS` records are collected, extract each remaining item, and keep a
record only when its link or its id is non-empty. -/
def scrape_loop : List Scope → List ListingRecord → List ListingRecord
  | [], results => results
  | item :: rest, results =>
    if MAX_ITEMS ≤ results.length then results
    else
      let r := extract_record item
      if r.link ≠ "" ∨ r.id ≠ "" then scrape_loop rest (results ++ [r])
      else scrape_loop rest results

/-- Embeds `scrape_first_page` (lines 198-279) over its observable page
state: `none` models the presence-wait timing out (return `[]`), `some
items` the enumerated listing elements; consent dismissal and the debug
dumps do not influence the returned records. -/
def scrape_first_page (page : Option (List Scope)) : List ListingRecord :=
  match page with
  | none => []
  | some items => scrape_loop items []

/-- A candidate interactive element found by a dismissal selector:
`clickOk` is the outcome of `try_click` (direct click, with the in-page
script click as fallback, merged into one boolean). -/
structure BannerEl where
  clickOk : Bool

/-- A button or anchor inside an iframe, with its rendered text. -/
structure FrameBtn where
  text : String
  clickOk : Bool

/-- Observable page state for `dismiss_cookie_banner`: `els` models
`driver.find_elements` for each candidate selector (an empty list both for
no match and for a raised lookup error, which the code turns into `els =
[]`), and `frames` lists, per iframe, the `//button | //a` elements it
contains. -/
structure BannerPage where
  els : String → List BannerEl
  frames : List (List FrameBtn)

/-- Ordered dismissal candidate selectors (lines 87-101), generic first. -/
def candidates : List String :=
  ["button[aria-label*=\x27accept\x27]",
   "button[aria-label*=\x27Accept\x27]",
   "button[aria-label*=\x27Akzeptieren\x27]",
   "button[aria-label*=\x27Einverstanden\x27]",
   "button[class*=\x27accept\x27]",
   "button[class*=\x27cookie\x27]",
   "button[class*=\x27consent\x27]",
   "//button[contains(translate(., \x27ABCDEFGHIJKLMNOPQRSTUVWXYZ\x27, \x27abcdefghijklmnopqrstuvwxyz\x27), \x27accept\x27)]",
   "//button[contains(translate(., \x27ABCDEFGHIJKLMNOPQRSTUVWXYZÄÖÜ\x27, \x27abcdefghijklmnopqrstuvwxyzäöü\x27), \x27akzept\x27)]",
   "//button[contains(translate(., \x27ABCDEFGHIJKLMNOPQRSTUVWXYZ\x27, \x27abcdefghijklmnopqrstuvwxyz\x27), \x27einverstanden\x27)]",
   "//a[contains(translate(., \x27ABCDEFGHIJKLMNOPQRSTUVWXYZ\x27, \x27abcdefghijklmnopqrstuvwxyz\x27), \x27accept\x27)]",
   "//div[contains(@class,\x27cookie\x27)]//button",
   "//div[contains(@class,\x27consent\x27)]//button"]

/-- Keywords looked for in iframe button text (line 130). -/
def bannerKeywords : List String := ["accept", "akzept", "einverstanden", "cookie"]

/-- Per-selector element loop (lines 112-119): first successful click wins. -/
def clickLoop : List BannerEl → Bool
  | [] => false
  | el :: rest => if el.clickOk then true else clickLoop rest

/-- Candidate-selector loop (lines 103-119). -/
def candLoop (page : BannerPage) : List String → Bool
  | [] => false
  | sel :: rest => if clickLoop (page.els sel) then true else candLoop page rest

/-- Button loop inside one iframe (lines 127-135): lowercase the stripped
text, and click only buttons whose text contains one of the keywords;
a failed click falls through to the next button. -/
def frameBtnLoop : List FrameBtn → Bool
  | [] => false
  | b :: rest =>
    let text := pyLower (pyStrip b.text)
    if bannerKeywords.any (fun k => strContains text k) then
      if b.clickOk then true else frameBtnLoop rest
    else frameBtnLoop rest

/-- Iframe sweep (lines 122-139), entered only after every candidate
selector failed. -/
def frameLoop : List (List FrameBtn) → Bool
  | [] => false
  | f :: rest => if frameBtnLoop f then true else frameLoop rest

/-- Embeds `dismiss_cookie_banner` (lines 80-144): try the candidate
selectors in order, then sweep the iframes; `false` when nothing was
clicked.  Every failure path in the code is caught (`try/except` around
each lookup and the whole sweep), so the call never raises. -/
def dismiss_cookie_banner (page : BannerPage) : Bool :=
  if candLoop page candidates then true else frameLoop page.frames

end Reise

namespace Tmpl

/-- A located element of the template scraper: tag name, rendered text,
attribute table. -/
structure Elem where
  tag : String
  text : String
  attr : String → Option String

/-- One listing element (`.result-item`): `find` models
`item.find_element(By.CSS_SELECTOR, sel)` with `none` for any exception. -/
structure Item where
  find : String → Option Elem

/-- A record of the template scraper, keyed by `FIELD_SELECTORS` insertion
order: title, price, link.  It has no id field. -/
structure SRecord where
  title : String
  price : String
  link : String
deriving DecidableEq, Repr

/-- Page parameter name (`PAGE_PARAM_NAME = "page"`). -/
def PAGE_PARAM_NAME : String := "page"

/-- Pagination safety limit (`MAX_PAGES = 10`). -/
def MAX_PAGES : Nat := 10

/-- Embeds `build_url_for_page(base_url, page_number)` (lines 58-63):
append the page parameter with `&` when the base URL already contains a
`?`, else with `?`. -/
def build_url_for_page (base_url : String) (page_number : Nat) : String :=
  if strContains base_url "?" then
    base_url ++ "&" ++ PAGE_PARAM_NAME ++ "=" ++ toString page_number
  else
    base_url ++ "?" ++ PAGE_PARAM_NAME ++ "=" ++ toString page_number

/-- Embeds `extract_field_from_element(item, selector)` (lines 82-92): on
an `a` element prefer the `href` attribute (text only when the attribute is
`None`), otherwise the stripped text; `""` on any lookup failure. -/
def extract_field_from_element (item : Item) (selector : String) : String :=
  match item.find selector with
  | none => ""
  | some elem =>
    if pyLower elem.tag = "a" then
      match elem.attr "href" with
      | some href => href
      | none => pyStrip elem.text
    else pyStrip elem.text

/-- Embeds `scrape_page` (lines 94-115) over its observable page state:
`none` models a presence-wait timeout (return `[]`); otherwise one record
per enumerated item, fields extracted by `FIELD_SELECTORS` =
\x7btitle: ".title", price: ".price", link: "a"\x7d, appended
unconditionally. -/
def scrape_page (page : Option (List Item)) : List SRecord :=
  match page with
  | none => []
  | some items =>
    items.map (fun item =>
      { title := extract_field_from_element item ".title"
        price := extract_field_from_element item ".price"
        link := extract_field_from_element item "a" })

/-- Observable state of the next control for one `click_next` call:
whether `find_element` locates the button, the value of its `disabled`
attribute, whether `btn.click()` succeeds, and whether the staleness wait
completes before its timeout. -/
structure NextControl where
  found : Bool
  disabled : Option String
  clickOk : Bool
  staleOk : Bool

/-- Python truthiness of `get_attribute` results: `None` and `""` are
falsy, every other string truthy. -/
def truthy : Option String → Bool
  | none => false
  | some s => s ≠ ""

/-- Exit path taken by `click_next` (lines 117-139), in the order the code
checks them: element missing, disabled attribute truthy, click raising,
staleness timeout, or success. -/
inductive ClickResult where
  | success
  | notFound
  | disabledBtn
  | clickError
  | staleTimeout
deriving DecidableEq, Repr

/-- Which branch of `click_next` fires for a given control state. -/
def click_next_result (c : NextControl) : ClickResult :=
  if !c.found then .notFound
  else if truthy c.disabled then .disabledBtn
  else if !c.clickOk then .clickError
  else if c.staleOk then .success
  else .staleTimeout

/-- Embeds `click_next` (lines 117-139): `true` exactly on the success
path, `false` on every caught failure. -/
def click_next (c : NextControl) : Bool :=
  match click_next_result c with
  | .success => true
  | _ => false

/-- Why the pagination loop of `main` stopped.  The code logs and `break`s;
these constructors name its distinct exit paths (the specification's
termination reasons). -/
inductive StopReason where
  | ceilingReached
  | emptyPage
  | presenceTimeout
  | noNextControl
  | disabledBtn
  | clickFailed
  | navigationTimeout
deriving DecidableEq, Repr

/-- Environment of a UrlParam-mode run: what `scrape_page` returns for each
page number (the composition of `build_url_for_page` and the live page). -/
structure UrlEnv where
  pageResults : Nat → List SRecord

/-- UrlParam-mode loop of `main` (lines 155-165): `page` is the current
page number, `remaining` the pages left in `range(1, MAX_PAGES + 1)`,
`acc` the accumulated records and `calls` the number of `scrape_page`
calls so far.  Returns the accumulated records, the exit path, and the
total number of pages scraped. -/
def url_loop (env : UrlEnv) : Nat → Nat → List SRecord → Nat →
    List SRecord × StopReason × Nat
  | _, 0, acc, calls => (acc, .ceilingReached, calls)
  | page, r + 1, acc, calls =>
    let pr := env.pageResults page
    if pr = [] then (acc, .emptyPage, calls + 1)
    else url_loop env (page + 1) r (acc ++ pr) (calls + 1)

/-- Embeds the UrlParam branch of `main`: pages 1 through `MAX_PAGES`. -/
def run_url (env : UrlEnv) : List SRecord × StopReason × Nat :=
  url_loop env 1 MAX_PAGES [] 0

/-- Concatenation of the page results for `count` pages starting at
`start`, in visit order. -/
def pagesConcat (env : UrlEnv) : Nat → Nat → List SRecord
  | _, 0 => []
  | start, c + 1 => env.pageResults start ++ pagesConcat env (start + 1) c

/-- Observable state of one NextButton-mode iteration: whether the
presence wait succeeds, what `scrape_page` returns on the current page, and
the state of the next control. -/
structure BtnStep where
  present : Bool
  items : List SRecord
  next : NextControl

/-- NextButton-mode loop of `main` (lines 166-187): wait for items (break
on timeout), scrape (break on empty page without accumulating), accumulate,
then `click_next` (break when it returns `false`). -/
def btn_loop (env : Nat → BtnStep) : Nat → Nat → List SRecord × StopReason × Nat
  | _, 0 => ([], .ceilingReached, 0)
  | page, r + 1 =>
    let st := env page
    if !st.present then ([], .presenceTimeout, 0)
    else if st.items = [] then ([], .emptyPage, 1)
    else
      match click_next_result st.next with
      | .success =>
        let res := btn_loop env (page + 1) r
        (st.items ++ res.1, res.2.1, res.2.2 + 1)
      | .notFound => (st.items, .noNextControl, 1)
      | .disabledBtn => (st.items, .disabledBtn, 1)
      | .clickError => (st.items, .clickFailed, 1)
      | .staleTimeout => (st.items, .navigationTimeout, 1)

/-- Embeds the NextButton branch of `main`: up to `MAX_PAGES` iterations
starting at page 1. -/
def run_btn (env : Nat → BtnStep) : List SRecord × StopReason × Nat :=
  btn_loop env 1 MAX_PAGES

/-- Concatenation of the per-page item lists of `count` NextButton-mode
steps starting at `start`, in visit order. -/
def btnConcat (env : Nat → BtnStep) : Nat → Nat → List SRecord
  | _, 0 => []
  | start, c + 1 => (env start).items ++ btnConcat env (start + 1) c

end Tmpl

/-- Specification-side title fallback (the spec's words): the first line of
the text whose stripped content is non-empty, stripped; empty when every
line is blank. -/
def firstNonEmptyLine (text : String) : String :=
  (((pySplit text '\n').map pyStrip).find? (fun l => l != "")).getD ""

/-- A concrete listing scope used as a witness input: only the selector
`a.s-item__link` matches, yielding a link element whose `href` is an item
URL. -/
def witnessScope : Reise.Scope where
  find := fun s =>
    if s = "a.s-item__link" then
      some { text := "", attr := fun a => if a = "href" then some "https://e/itm/1234567" else none }
    else none
  text := "Guitar"

/-- A concrete listing scope on which no selector matches and whose text
starts with a blank line. -/
def blankFirstLineScope : Reise.Scope where
  find := fun _ => none
  text := "\nActual Title"

/-- A concrete scope for exercising the selector chain: only the selector
`b` matches, with whitespace-padded text. -/
def chainScope : Reise.Scope where
  find := fun s =>
    if s = "b" then some { text := "  T  ", attr := fun _ => none } else none
  text := ""

/-- A concrete listing item of the template scraper on which every lookup
fails. -/
def emptyItem : Tmpl.Item where
  find := fun _ => none

/-- A concrete banner page with no matching dismissal candidate anywhere:
no selector matches any element, and the single iframe button's text
contains none of the keywords. -/
def noBannerPage : Reise.BannerPage where
  els := fun _ => []
  frames := [[{ text := "schliessen", clickOk := true }]]

/-- A concrete UrlParam-mode environment: pages 1 and 2 yield one record,
page 3 and beyond are empty. -/
def urlEnv3 : Tmpl.UrlEnv where
  pageResults := fun n =>
    if n < 3 then [{ title := "t", price := "p", link := "l" }] else []

/-- A concrete UrlParam-mode environment in which every page yields one
record. -/
def urlEnvFull : Tmpl.UrlEnv where
  pageResults := fun _ => [{ title := "t", price := "p", link := "l" }]

/-- A next control that is present, enabled, clickable, and whose
staleness wait succeeds. -/
def goodNext : Tmpl.NextControl where
  found := true
  disabled := none
  clickOk := true
  staleOk := true

/-- A next control that is present but carries a truthy `disabled`
attribute. -/
def disabledNext : Tmpl.NextControl where
  found := true
  disabled := some "true"
  clickOk := true
  staleOk := true

/-- A concrete NextButton-mode environment in which every step succeeds
fully. -/
def btnEnvFull : Nat → Tmpl.BtnStep := fun _ =>
  { present := true, items := [{ title := "t", price := "p", link := "l" }], next := goodNext }

/-- A concrete NextButton-mode environment: steps 1 and 2 succeed, step 3
has a disabled next control. -/
def btnEnvDisabled : Nat → Tmpl.BtnStep := fun n =>
  { present := true
    items := [{ title := "t", price := "p", link := "l" }]
    next := if n < 3 then goodNext else disabledNext }

/-! ## Selector-chain resolution (C2) -/

/-- Helper: the selector-alternative loop computes the first `textHit` of
the list, defaulting to the empty string. -/
theorem goText_eq_findSome (item : Reise.Scope) (l : List String) :
    Reise.goText item l = ((l.findSome? (Reise.textHit item)).getD "") := by
  induction l with
  | nil => rfl
  | cons sel rest ih =>
    rw [List.findSome?_cons]
    by_cases h1 : pyStrip sel = ""
    · simp [Reise.goText, Reise.textHit, h1, ih]
    · cases hf : item.find (pyStrip sel) with
      | none => simp [Reise.goText, Reise.textHit, h1, hf, ih]
      | some el =>
        by_cases h2 : pyStrip el.text = ""
        · simp [Reise.goText, Reise.textHit, h1, hf, h2, ih]
        · simp [Reise.goText, Reise.textHit, h1, hf, h2]

/-- C2: `find_first_text` returns the stripped text of the first selector
alternative in the comma-separated chain that matches an element with
non-empty (non-whitespace) text, and the empty string when no alternative
does; it is a total function (the only lookup failure,
`NoSuchElementException`, is caught), and alternatives after the first hit
never influence the result. -/
theorem resolveText_first_hit :
    (∀ (item : Reise.Scope) (selectors : String),
        Reise.find_first_text item selectors =
          (((pySplit selectors ',').findSome? (Reise.textHit item)).getD "")) ∧
    (∀ (item : Reise.Scope) (l₁ l₂ : List String),
        (l₁.findSome? (Reise.textHit item)).isSome →
        Reise.goText item (l₁ ++ l₂) = Reise.goText item l₁) := by
  constructor
  · intro item selectors
    exact goText_eq_findSome item (pySplit selectors ',')
  · intro item l₁ l₂ h
    rw [goText_eq_findSome, goText_eq_findSome, List.findSome?_append]
    obtain ⟨b, hb⟩ := Option.isSome_iff_exists.mp h
    rw [hb]
    rfl

/-- Witness for C2 at a concrete scope and chain: the second alternative
hits with whitespace-trimmed text, and the third alternative is
irrelevant. -/
theorem resolveText_first_hit_witness :
    Reise.find_first_text chainScope "a, b, c" =
      (((pySplit "a, b, c" ',').findSome? (Reise.textHit chainScope)).getD "") ∧
    Reise.goText chainScope (["b"] ++ ["c"]) = Reise.goText chainScope ["b"] := by
  constructor
  · exact resolveText_first_hit.1 chainScope "a, b, c"
  · exact resolveText_first_hit.2 chainScope ["b"] ["c"] (by decide)

/-! ## Identifier derivation (C3) -/

/-- Helper: when the maximal digit run at the head has length at least
`n`, the first `n` characters are all digits. -/
theorem takeDigits_spec (s : List Char) :
    ∀ n : Nat, n ≤ (Reise.takeDigits s).length →
      (s.take n).length = n ∧ (s.take n).all Char.isDigit = true := by
  induction s with
  | nil =>
    intro n hn
    simp only [Reise.takeDigits, List.length_nil, Nat.le_zero] at hn
    subst hn
    simp
  | cons c cs ih =>
    intro n hn
    by_cases hd : c.isDigit
    · cases n with
      | zero => simp
      | succ m =>
        simp only [Reise.takeDigits, hd, if_true, List.length_cons,
          Nat.succ_le_succ_iff] at hn
        obtain ⟨h1, h2⟩ := ih m hn
        simp [List.take_succ_cons, h1, h2, hd]
    · simp [Reise.takeDigits, hd] at hn
      subst hn
      simp

/-- Helper: a list with no six-digit run has no six-digit run at its
head. -/
theorem matchDigits6_none_of_no_run (s : List Char)
    (h : Reise.hasSixDigitRun s = false) : Reise.matchDigits6 s = none := by
  by_cases h6 : 6 ≤ (Reise.takeDigits s).length
  · exfalso
    obtain ⟨h1, h2⟩ := takeDigits_spec s 6 h6
    cases s with
    | nil => simp at h1
    | cons c cs =>
      have hb : (((c :: cs).take 6).length == 6 && ((c :: cs).take 6).all Char.isDigit)
          = true := by
        simp at h1 h2 ⊢
        exact ⟨by omega, h2.1, h2.2⟩
      rw [Reise.hasSixDigitRun, hb] at h
      simp at h
  · simp [Reise.matchDigits6, h6]

/-- Helper: dropping the head preserves the absence of a six-digit run. -/
theorem hasSixDigitRun_tail (c : Char) (cs : List Char)
    (h : Reise.hasSixDigitRun (c :: cs) = false) : Reise.hasSixDigitRun cs = false := by
  rw [Reise.hasSixDigitRun] at h
  exact (Bool.or_eq_false_iff.mp h).2

/-- Helper: dropping any prefix preserves the absence of a six-digit
run. -/
theorem hasSixDigitRun_drop (n : Nat) :
    ∀ s : List Char, Reise.hasSixDigitRun s = false →
      Reise.hasSixDigitRun (s.drop n) = false := by
  induction n with
  | zero => intro s h; simpa using h
  | succ m ih =>
    intro s h
    cases s with
    | nil => simpa using h
    | cons c cs =>
      rw [List.drop_succ_cons]
      exact ih cs (hasSixDigitRun_tail c cs h)

/-- Helper: the lazy-group scan fails on a list with no six-digit run. -/
theorem withGroup_none_of_no_run (s : List Char)
    (h : Reise.hasSixDigitRun s = false) : Reise.withGroup s = none := by
  induction s with
  | nil => rfl
  | cons c cs ih =>
    have hcs := hasSixDigitRun_tail c cs h
    rw [Reise.withGroup]
    by_cases hc : c = '/'
    · simp [hc, matchDigits6_none_of_no_run cs hcs, ih hcs]
    · by_cases hn : c = '\n'
      · simp [hc, hn]
      · simp [hc, hn, ih hcs]

/-- Helper: stage 1 fails on a URL with no six-digit run. -/
theorem searchItm_none_of_no_run (s : List Char)
    (h : Reise.hasSixDigitRun s = false) : Reise.searchItm s = none := by
  induction s with
  | nil => rfl
  | cons c cs ih =>
    have hcs := hasSixDigitRun_tail c cs h
    rw [Reise.searchItm]
    split
    · have hd : Reise.hasSixDigitRun ((c :: cs).drop 5) = false :=
        hasSixDigitRun_drop 5 (c :: cs) h
      have hafter : Reise.matchAfterItm ((c :: cs).drop 5) = none := by
        unfold Reise.matchAfterItm
        rw [withGroup_none_of_no_run _ hd, matchDigits6_none_of_no_run _ hd]
      rw [hafter]
      exact ih hcs
    · exact ih hcs

/-- Helper: stage 2 fails on a URL with no six-digit run. -/
theorem searchDigits6_none_of_no_run (s : List Char)
    (h : Reise.hasSixDigitRun s = false) : Reise.searchDigits6 s = none := by
  induction s with
  | nil => rfl
  | cons c cs ih =>
    rw [Reise.searchDigits6]
    simp [matchDigits6_none_of_no_run _ h, ih (hasSixDigitRun_tail c cs h)]

/-- C3: `extract_item_id_from_url` is the two-stage match of the claim: a
URL with the digit run anchored after `/itm/` (with an intermediate path
segment) yields that run; a URL without the marker yields the first digit
run of length at least six; a URL with no digit run of length at least six
yields the empty string (so both stages failed).  A third concrete input
shows stage 1 outranking an earlier unanchored run. -/
theorem derive_id_two_stage :
    Reise.extract_item_id_from_url "https://www.ebay.ch/itm/abc/123456789012" =
      "123456789012" ∧
    Reise.extract_item_id_from_url "https://host/page?code=9988776" = "9988776" ∧
    Reise.extract_item_id_from_url "https://h/654321/itm/abc/123456789012" =
      "123456789012" ∧
    (∀ url : String, Reise.hasSixDigitRun url.toList = false →
        Reise.extract_item_id_from_url url = "") := by
  refine ⟨by decide, by decide, by decide, ?_⟩
  intro url h
  have h1 : Reise.searchItm url.toList = none := searchItm_none_of_no_run _ h
  have h2 : Reise.searchDigits6 url.toList = none := searchDigits6_none_of_no_run _ h
  unfold Reise.extract_item_id_from_url
  by_cases hu : url = ""
  · simp [hu]
  · simp only [String.toList] at h1 h2
    simp [hu, h1, h2]

/-- Witness for C3's universally quantified clause at a concrete URL whose
longest digit run has five digits. -/
theorem derive_id_two_stage_witness :
    Reise.extract_item_id_from_url "https://x/12345" = "" :=
  derive_id_two_stage.2.2.2 "https://x/12345" (by decide)

/-! ## Retention invariant (C1) and per-page ceiling (C5) -/

/-- Helper: the collection loop of `scrape_first_page` preserves the
retention invariant of its accumulator, because a freshly extracted record
is appended only behind the `href or item_id` guard. -/
theorem scrape_loop_retention (items : List Reise.Scope) :
    ∀ acc : List Reise.ListingRecord,
      (∀ r ∈ acc, r.link ≠ "" ∨ r.id ≠ "") →
      ∀ r ∈ Reise.scrape_loop items acc, r.link ≠ "" ∨ r.id ≠ "" := by
  induction items with
  | nil => intro acc hacc; simpa [Reise.scrape_loop] using hacc
  | cons item rest ih =>
    intro acc hacc
    simp only [Reise.scrape_loop]
    split_ifs with h1 h2
    · exact hacc
    · apply ih
      intro r hr
      rcases List.mem_append.mp hr with hmem | hmem
      · exact hacc r hmem
      · rw [List.mem_singleton.mp hmem]
        exact h2
    · exact ih acc hacc

/-- C1 (amended): every record in the output of `scrape_first_page` has a
non-empty link or a non-empty id, for every input page (including the
presence-timeout page). -/
theorem retention_invariant_first_page (page : Option (List Reise.Scope))
    (r : Reise.ListingRecord) (hr : r ∈ Reise.scrape_first_page page) :
    r.link ≠ "" ∨ r.id ≠ "" := by
  cases page with
  | none => simp [Reise.scrape_first_page] at hr
  | some items => exact scrape_loop_retention items [] (by simp) r hr

/-- Witness for C1's amended invariant at a concrete one-item page. -/
theorem retention_invariant_first_page_witness :
    ({ id := "1234567", title := "Guitar", price := "", link := "https://e/itm/1234567" } :
        Reise.ListingRecord).link ≠ "" ∨
      ({ id := "1234567", title := "Guitar", price := "", link := "https://e/itm/1234567" } :
        Reise.ListingRecord).id ≠ "" :=
  retention_invariant_first_page (some [witnessScope]) _ (by decide)

/-- C1 counterexample: `scrape_page` of the template scraper has no
retention filter — on a page whose single listing element matches no field
selector it returns a record whose link is empty (and the record carries no
id at all), so the claimed invariant fails for `scrape_page`. -/
theorem retention_counterexample_scrape_page :
    Tmpl.scrape_page (some [emptyItem]) = [{ title := "", price := "", link := "" }] ∧
      ({ title := "", price := "", link := "" } : Tmpl.SRecord).link = "" :=
  ⟨by decide, rfl⟩

/-- Helper: the collection loop never grows its accumulator beyond
`MAX_ITEMS`. -/
theorem scrape_loop_length (items : List Reise.Scope) :
    ∀ acc : List Reise.ListingRecord,
      acc.length ≤ Reise.MAX_ITEMS →
      (Reise.scrape_loop items acc).length ≤ Reise.MAX_ITEMS := by
  induction items with
  | nil => intro acc hacc; simpa [Reise.scrape_loop] using hacc
  | cons item rest ih =>
    intro acc hacc
    simp only [Reise.scrape_loop]
    split_ifs with h1 h2
    · exact hacc
    · apply ih
      simp only [List.length_append, List.length_singleton]
      omega
    · exact ih acc hacc

/-- C5 (amended): `scrape_first_page` returns at most `MAX_ITEMS` records,
for every input page. -/
theorem item_ceiling_first_page (page : Option (List Reise.Scope)) :
    (Reise.scrape_first_page page).length ≤ Reise.MAX_ITEMS := by
  cases page with
  | none => simp [Reise.scrape_first_page]
  | some items => exact scrape_loop_length items [] (by simp)

/-- Witness for C5's amended bound at a concrete one-item page. -/
theorem item_ceiling_first_page_witness :
    (Reise.scrape_first_page (some [witnessScope])).length ≤ Reise.MAX_ITEMS :=
  item_ceiling_first_page (some [witnessScope])

/-- C5 counterexample: `scrape_page` of the template scraper has no
per-page item ceiling — a page presenting `MAX_ITEMS + 1` listing elements
yields `MAX_ITEMS + 1` records. -/
theorem item_ceiling_counterexample :
    (Tmpl.scrape_page (some (List.replicate (Reise.MAX_ITEMS + 1) emptyItem))).length =
      Reise.MAX_ITEMS + 1 := by
  simp [Tmpl.scrape_page]

/-! ## Title fallback (C4) -/

/-- C4 counterexample: on a scope whose text starts with a blank line and
whose title chain yields nothing, the extracted title is the empty string,
while the first non-empty line of the scope's text is `"Actual Title"` —
the code takes line zero, not the first non-empty line. -/
theorem title_fallback_counterexample :
    Reise.find_first_text blankFirstLineScope Reise.TITLE_SELECTOR = "" ∧
      (Reise.extract_record blankFirstLineScope).title = "" ∧
      firstNonEmptyLine blankFirstLineScope.text = "Actual Title" := by
  decide

/-- C4 (amended): when the title chain yields nothing, the extracted title
is the text before the first newline of the scope's full text, stripped
(empty when that first line is blank). -/
theorem title_fallback_first_line (item : Reise.Scope)
    (h : Reise.find_first_text item Reise.TITLE_SELECTOR = "") :
    (Reise.extract_record item).title = pyStrip ((pySplit item.text '\n').headD "") := by
  simp [Reise.extract_record, h]

/-- Witness for C4's amended fallback at a concrete scope. -/
theorem title_fallback_first_line_witness :
    (Reise.extract_record blankFirstLineScope).title =
      pyStrip ((pySplit blankFirstLineScope.text '\n').headD "") :=
  title_fallback_first_line blankFirstLineScope (by decide)

/-! ## URL construction (C6) -/

/-- C6: `build_url_for_page` appends the page parameter with `?` when the
base URL contains no `?`, and with `&` otherwise; instantiated at the two
example URLs of the claim. -/
theorem build_url_page_param :
    (∀ (base : String) (n : Nat), strContains base "?" = false →
        Tmpl.build_url_for_page base n =
          base ++ "?" ++ Tmpl.PAGE_PARAM_NAME ++ "=" ++ toString n) ∧
    (∀ (base : String) (n : Nat), strContains base "?" = true →
        Tmpl.build_url_for_page base n =
          base ++ "&" ++ Tmpl.PAGE_PARAM_NAME ++ "=" ++ toString n) ∧
    Tmpl.build_url_for_page "https://x/y" 3 = "https://x/y?page=3" ∧
    Tmpl.build_url_for_page "https://x/y?z=1" 3 = "https://x/y?z=1&page=3" := by
  refine ⟨?_, ?_, by decide, by decide⟩
  · intro base n h
    simp [Tmpl.build_url_for_page, h]
  · intro base n h
    simp [Tmpl.build_url_for_page, h]

/-- Witness for C6's conditional clauses at concrete base URLs. -/
theorem build_url_page_param_witness :
    Tmpl.build_url_for_page "https://a/b" 2 =
        "https://a/b" ++ "?" ++ Tmpl.PAGE_PARAM_NAME ++ "=" ++ toString 2 ∧
      Tmpl.build_url_for_page "https://a/b?c=1" 2 =
        "https://a/b?c=1" ++ "&" ++ Tmpl.PAGE_PARAM_NAME ++ "=" ++ toString 2 :=
  ⟨build_url_page_param.1 "https://a/b" 2 (by decide),
   build_url_page_param.2.1 "https://a/b?c=1" 2 (by decide)⟩

/-! ## Pagination termination (C7, C8, C9) -/

/-- Helper: the UrlParam-mode loop makes at most `remaining` further
`scrape_page` calls. -/
theorem url_loop_calls_le (env : Tmpl.UrlEnv) :
    ∀ (rem page : Nat) (acc : List Tmpl.SRecord) (calls : Nat),
      (Tmpl.url_loop env page rem acc calls).2.2 ≤ calls + rem := by
  intro rem
  induction rem with
  | zero => intro page acc calls; simp [Tmpl.url_loop]
  | succ r ih =>
    intro page acc calls
    rw [Tmpl.url_loop]
    split
    · simp
    · have := ih (page + 1) (acc ++ env.pageResults page) (calls + 1)
      omega

/-- Helper: when every page is non-empty the UrlParam-mode loop runs the
whole range and exits through the ceiling. -/
theorem url_loop_all_nonempty (env : Tmpl.UrlEnv)
    (hne : ∀ n, env.pageResults n ≠ []) :
    ∀ (rem page : Nat) (acc : List Tmpl.SRecord) (calls : Nat),
      Tmpl.url_loop env page rem acc calls =
        (acc ++ Tmpl.pagesConcat env page rem, .ceilingReached, calls + rem) := by
  intro rem
  induction rem with
  | zero => intro page acc calls; simp [Tmpl.url_loop, Tmpl.pagesConcat]
  | succ r ih =>
    intro page acc calls
    rw [Tmpl.url_loop]
    rw [if_neg (hne page)]
    rw [ih (page + 1) (acc ++ env.pageResults page) (calls + 1)]
    have hc : calls + 1 + r = calls + (r + 1) := by omega
    simp [Tmpl.pagesConcat, List.append_assoc, hc]

/-- Helper: the UrlParam-mode loop stops at the first empty page,
accumulating exactly the pages before it. -/
theorem url_loop_empty_page (env : Tmpl.UrlEnv) :
    ∀ (k rem page : Nat) (acc : List Tmpl.SRecord) (calls : Nat),
      k < rem →
      env.pageResults (page + k) = [] →
      (∀ j, j < k → env.pageResults (page + j) ≠ []) →
      Tmpl.url_loop env page rem acc calls =
        (acc ++ Tmpl.pagesConcat env page k, .emptyPage, calls + k + 1) := by
  intro k
  induction k with
  | zero =>
    intro rem page acc calls hk he _
    cases rem with
    | zero => omega
    | succ r =>
      simp only [Nat.add_zero] at he
      rw [Tmpl.url_loop]
      rw [if_pos he]
      simp [Tmpl.pagesConcat]
  | succ m ih =>
    intro rem page acc calls hk he hne
    cases rem with
    | zero => omega
    | succ r =>
      have h0 : env.pageResults page ≠ [] := by
        have := hne 0 (by omega)
        simpa using this
      rw [Tmpl.url_loop]
      rw [if_neg h0]
      have he' : env.pageResults (page + 1 + m) = [] := by
        rw [show page + 1 + m = page + (m + 1) by omega]
        exact he
      have hne' : ∀ j, j < m → env.pageResults (page + 1 + j) ≠ [] := by
        intro j hj
        rw [show page + 1 + j = page + (j + 1) by omega]
        exact hne (j + 1) (by omega)
      rw [ih r (page + 1) (acc ++ env.pageResults page) (calls + 1) (by omega) he' hne']
      have hc : calls + 1 + m + 1 = calls + (m + 1) + 1 := by omega
      simp [Tmpl.pagesConcat, List.append_assoc, hc]

/-- Helper: the NextButton-mode loop makes at most `remaining` further
`scrape_page` calls. -/
theorem btn_loop_calls_le (env : Nat → Tmpl.BtnStep) :
    ∀ (rem page : Nat), (Tmpl.btn_loop env page rem).2.2 ≤ rem := by
  intro rem
  induction rem with
  | zero => intro page; simp [Tmpl.btn_loop]
  | succ r ih =>
    intro page
    rw [Tmpl.btn_loop]
    by_cases hp : (env page).present
    · by_cases hi : (env page).items = []
      · simp [hp, hi]
      · cases hres : Tmpl.click_next_result (env page).next with
        | success =>
          have := ih (page + 1)
          simp only [hp, Bool.not_true, Bool.false_eq_true, if_false, hi, if_neg, hres]
          simp [hi]
          omega
        | notFound => simp [hp, hi, hres]
        | disabledBtn => simp [hp, hi, hres]
        | clickError => simp [hp, hi, hres]
        | staleTimeout => simp [hp, hi, hres]
    · simp [Bool.not_eq_true] at hp
      simp [hp]

/-- Helper: when every step presents items and its next control activates,
the NextButton-mode loop runs the whole range and exits through the
ceiling. -/
theorem btn_loop_all_success (env : Nat → Tmpl.BtnStep)
    (h : ∀ n, (env n).present = true ∧ (env n).items ≠ [] ∧
      Tmpl.click_next_result (env n).next = .success) :
    ∀ (rem page : Nat),
      Tmpl.btn_loop env page rem = (Tmpl.btnConcat env page rem, .ceilingReached, rem) := by
  intro rem
  induction rem with
  | zero => intro page; simp [Tmpl.btn_loop, Tmpl.btnConcat]
  | succ r ih =>
    intro page
    obtain ⟨hp, hi, hs⟩ := h page
    rw [Tmpl.btn_loop]
    simp [hp, hi, hs, ih (page + 1), Tmpl.btnConcat]

/-- Helper: a disabled next control at step `m` (counted from the current
page) stops the NextButton-mode loop right there, returning the records of
the `m + 1` pages visited. -/
theorem btn_loop_disabled (env : Nat → Tmpl.BtnStep) :
    ∀ (m rem page : Nat),
      m < rem →
      (∀ j, j < m → (env (page + j)).present = true ∧ (env (page + j)).items ≠ [] ∧
        Tmpl.click_next_result (env (page + j)).next = .success) →
      (env (page + m)).present = true →
      (env (page + m)).items ≠ [] →
      Tmpl.click_next_result (env (page + m)).next = .disabledBtn →
      Tmpl.btn_loop env page rem =
        (Tmpl.btnConcat env page (m + 1), .disabledBtn, m + 1) := by
  intro m
  induction m with
  | zero =>
    intro rem page hm _ hp hi hd
    cases rem with
    | zero => omega
    | succ r =>
      simp only [Nat.add_zero] at hp hi hd
      rw [Tmpl.btn_loop]
      simp [hp, hi, hd, Tmpl.btnConcat]
  | succ m ih =>
    intro rem page hm hgood hp hi hd
    cases rem with
    | zero => omega
    | succ r =>
      obtain ⟨hp0, hi0, hs0⟩ := hgood 0 (by omega)
      simp only [Nat.add_zero] at hp0 hi0 hs0
      have hgood' : ∀ j, j < m →
          (env (page + 1 + j)).present = true ∧ (env (page + 1 + j)).items ≠ [] ∧
          Tmpl.click_next_result (env (page + 1 + j)).next = .success := by
        intro j hj
        rw [show page + 1 + j = page + (j + 1) by omega]
        exact hgood (j + 1) (by omega)
      have hp' : (env (page + 1 + m)).present = true := by
        rw [show page + 1 + m = page + (m + 1) by omega]; exact hp
      have hi' : (env (page + 1 + m)).items ≠ [] := by
        rw [show page + 1 + m = page + (m + 1) by omega]; exact hi
      have hd' : Tmpl.click_next_result (env (page + 1 + m)).next = .disabledBtn := by
        rw [show page + 1 + m = page + (m + 1) by omega]; exact hd
      rw [Tmpl.btn_loop]
      simp [hp0, hi0, hs0, ih r (page + 1) (by omega) hgood' hp' hi' hd', Tmpl.btnConcat]

/-- C7: both pagination modes are total and scrape at most `MAX_PAGES`
pages, whatever the environment does; and in the adversarial environment
where every page is non-empty (and, in NextButton mode, the next control is
always present, enabled and successfully activated), the run stops with
reason `CeilingReached` after exactly `MAX_PAGES` pages. -/
theorem pagination_ceiling_bound :
    (∀ env : Tmpl.UrlEnv, (Tmpl.run_url env).2.2 ≤ Tmpl.MAX_PAGES) ∧
    (∀ env : Nat → Tmpl.BtnStep, (Tmpl.run_btn env).2.2 ≤ Tmpl.MAX_PAGES) ∧
    (∀ env : Tmpl.UrlEnv, (∀ n, env.pageResults n ≠ []) →
        Tmpl.run_url env =
          (Tmpl.pagesConcat env 1 Tmpl.MAX_PAGES, .ceilingReached, Tmpl.MAX_PAGES)) ∧
    (∀ env : Nat → Tmpl.BtnStep,
        (∀ n, (env n).present = true ∧ (env n).items ≠ [] ∧
          Tmpl.click_next_result (env n).next = .success) →
        Tmpl.run_btn env =
          (Tmpl.btnConcat env 1 Tmpl.MAX_PAGES, .ceilingReached, Tmpl.MAX_PAGES)) := by
  refine ⟨?_, ?_, ?_, ?_⟩
  · intro env
    have := url_loop_calls_le env Tmpl.MAX_PAGES 1 [] 0
    simpa [Tmpl.run_url] using this
  · intro env
    exact btn_loop_calls_le env Tmpl.MAX_PAGES 1
  · intro env hne
    have := url_loop_all_nonempty env hne Tmpl.MAX_PAGES 1 [] 0
    simpa [Tmpl.run_url] using this
  · intro env h
    exact btn_loop_all_success env h Tmpl.MAX_PAGES 1

/-- Witness for C7's conditional clauses at concrete environments in which
every page yields one record and the next control always succeeds. -/
theorem pagination_ceiling_bound_witness :
    Tmpl.run_url urlEnvFull =
        (Tmpl.pagesConcat urlEnvFull 1 Tmpl.MAX_PAGES, .ceilingReached, Tmpl.MAX_PAGES) ∧
      Tmpl.run_btn btnEnvFull =
        (Tmpl.btnConcat btnEnvFull 1 Tmpl.MAX_PAGES, .ceilingReached, Tmpl.MAX_PAGES) := by
  constructor
  · exact pagination_ceiling_bound.2.2.1 urlEnvFull (fun n => by simp [urlEnvFull])
  · refine pagination_ceiling_bound.2.2.2 btnEnvFull (fun n => ⟨rfl, ?_, ?_⟩)
    · show ([{ title := "t", price := "p", link := "l" }] : List Tmpl.SRecord) ≠ []
      decide
    · show Tmpl.click_next_result goodNext = .success
      decide

/-- C8: in UrlParam mode, if page `k` (within the ceiling) is the first
page on which `scrape_page` returns an empty sequence, the run terminates
with reason `EmptyPage` on page `k`, after exactly `k` page scrapes, and
the output is the concatenation of pages `1` to `k - 1` — nothing from page
`k` or any higher page contributes. -/
theorem url_mode_empty_page_stop (env : Tmpl.UrlEnv) (k : Nat)
    (h1 : 1 ≤ k) (h2 : k ≤ Tmpl.MAX_PAGES)
    (he : env.pageResults k = [])
    (hne : ∀ j, 1 ≤ j → j < k → env.pageResults j ≠ []) :
    Tmpl.run_url env = (Tmpl.pagesConcat env 1 (k - 1), .emptyPage, k) := by
  unfold Tmpl.run_url
  have hk : k - 1 < Tmpl.MAX_PAGES := by
    simp only [Tmpl.MAX_PAGES] at h2 ⊢
    omega
  have he' : env.pageResults (1 + (k - 1)) = [] := by
    rw [show 1 + (k - 1) = k by omega]
    exact he
  have hne' : ∀ j, j < k - 1 → env.pageResults (1 + j) ≠ [] := by
    intro j hj
    exact hne (1 + j) (by omega) (by omega)
  have := url_loop_empty_page env (k - 1) Tmpl.MAX_PAGES 1 [] 0 hk he' hne'
  rw [this, List.nil_append, show 0 + (k - 1) + 1 = k by omega]

/-- Witness for C8 at a concrete environment whose third page is the first
empty one. -/
theorem url_mode_empty_page_stop_witness :
    Tmpl.run_url urlEnv3 = (Tmpl.pagesConcat urlEnv3 1 2, .emptyPage, 3) :=
  url_mode_empty_page_stop urlEnv3 3 (by decide) (by decide) (by decide)
    (fun j hj1 hj2 => by
      have : j = 1 ∨ j = 2 := by omega
      rcases this with rfl | rfl <;> decide)

/-- C9: in NextButton mode, when the pages up to `k` scrape non-empty and
advance successfully but page `k`'s next control is found with a truthy
`disabled` attribute, `click_next` returns `false` without clicking, and
the run stops with reason `Disabled` after exactly the `k` pages visited,
returning precisely their records in visit order. -/
theorem next_button_disabled_stop (env : Nat → Tmpl.BtnStep) (k : Nat)
    (h1 : 1 ≤ k) (h2 : k ≤ Tmpl.MAX_PAGES)
    (hgood : ∀ j, 1 ≤ j → j < k → (env j).present = true ∧ (env j).items ≠ [] ∧
      Tmpl.click_next_result (env j).next = .success)
    (hp : (env k).present = true) (hi : (env k).items ≠ [])
    (hfound : (env k).next.found = true)
    (hdis : Tmpl.truthy (env k).next.disabled = true) :
    Tmpl.click_next (env k).next = false ∧
      Tmpl.run_btn env = (Tmpl.btnConcat env 1 k, .disabledBtn, k) := by
  have hres : Tmpl.click_next_result (env k).next = .disabledBtn := by
    simp [Tmpl.click_next_result, hfound, hdis]
  constructor
  · simp [Tmpl.click_next, hres]
  · unfold Tmpl.run_btn
    have hm : k - 1 < Tmpl.MAX_PAGES := by
      simp only [Tmpl.MAX_PAGES] at h2 ⊢
      omega
    have hgood' : ∀ j, j < k - 1 →
        (env (1 + j)).present = true ∧ (env (1 + j)).items ≠ [] ∧
        Tmpl.click_next_result (env (1 + j)).next = .success := by
      intro j hj
      exact hgood (1 + j) (by omega) (by omega)
    have hp' : (env (1 + (k - 1))).present = true := by
      rw [show 1 + (k - 1) = k by omega]; exact hp
    have hi' : (env (1 + (k - 1))).items ≠ [] := by
      rw [show 1 + (k - 1) = k by omega]; exact hi
    have hd' : Tmpl.click_next_result (env (1 + (k - 1))).next = .disabledBtn := by
      rw [show 1 + (k - 1) = k by omega]; exact hres
    have := btn_loop_disabled env (k - 1) Tmpl.MAX_PAGES 1 hm hgood' hp' hi' hd'
    rw [this, show k - 1 + 1 = k by omega]

/-- Witness for C9 at a concrete environment whose third page has a
present-but-disabled next control. -/
theorem next_button_disabled_stop_witness :
    Tmpl.click_next (btnEnvDisabled 3).next = false ∧
      Tmpl.run_btn btnEnvDisabled = (Tmpl.btnConcat btnEnvDisabled 1 3, .disabledBtn, 3) :=
  next_button_disabled_stop btnEnvDisabled 3 (by decide) (by decide)
    (fun j hj1 hj2 => by
      have : j = 1 ∨ j = 2 := by omega
      rcases this with rfl | rfl <;> exact ⟨rfl, by decide, by decide⟩)
    rfl (by decide) (by decide) (by decide)

/-! ## Consent dismissal (C10) -/

/-- Helper: the candidate-selector loop clicks nothing when every candidate
selector matches no element. -/
theorem candLoop_all_empty (page : Reise.BannerPage) :
    ∀ l : List String, (∀ sel ∈ l, page.els sel = []) → Reise.candLoop page l = false := by
  intro l
  induction l with
  | nil => intro _; rfl
  | cons sel rest ih =>
    intro h
    rw [Reise.candLoop]
    rw [h sel (List.mem_cons_self sel rest)]
    exact ih fun s hs => h s (List.mem_cons_of_mem sel hs)

/-- Helper: the per-iframe button loop clicks nothing when no button text
contains a dismissal keyword. -/
theorem frameBtnLoop_no_keyword :
    ∀ bs : List Reise.FrameBtn,
      (∀ b ∈ bs,
        (Reise.bannerKeywords.any fun k => strContains (pyLower (pyStrip b.text)) k) = false) →
      Reise.frameBtnLoop bs = false := by
  intro bs
  induction bs with
  | nil => intro _; rfl
  | cons b rest ih =>
    intro h
    rw [Reise.frameBtnLoop]
    rw [h b (List.mem_cons_self b rest)]
    simp only [Bool.false_eq_true, if_false]
    exact ih fun x hx => h x (List.mem_cons_of_mem b hx)

/-- Helper: the iframe sweep clicks nothing when no iframe holds a button
with a dismissal keyword. -/
theorem frameLoop_no_keyword :
    ∀ fs : List (List Reise.FrameBtn),
      (∀ f ∈ fs, ∀ b ∈ f,
        (Reise.bannerKeywords.any fun k => strContains (pyLower (pyStrip b.text)) k) = false) →
      Reise.frameLoop fs = false := by
  intro fs
  induction fs with
  | nil => intro _; rfl
  | cons f rest ih =>
    intro h
    rw [Reise.frameLoop]
    rw [frameBtnLoop_no_keyword f (h f (List.mem_cons_self f rest))]
    simp only [Bool.false_eq_true, if_false]
    exact ih fun g hg => h g (List.mem_cons_of_mem f hg)

/-- C10: when no dismissal candidate selector matches any element and no
iframe contains an interactive element whose text carries a dismissal
keyword, `dismiss_cookie_banner` returns `false`; the function is total
(every lookup and click failure inside it is caught), so the call never
raises. -/
theorem consent_absent_returns_false (page : Reise.BannerPage)
    (hc : ∀ sel ∈ Reise.candidates, page.els sel = [])
    (hf : ∀ f ∈ page.frames, ∀ b ∈ f,
      (Reise.bannerKeywords.any fun k => strContains (pyLower (pyStrip b.text)) k) = false) :
    Reise.dismiss_cookie_banner page = false := by
  unfold Reise.dismiss_cookie_banner
  rw [candLoop_all_empty page Reise.candidates hc]
  simp only [Bool.false_eq_true, if_false]
  exact frameLoop_no_keyword page.frames hf

/-- Witness for C10 at a concrete page with no candidate match and one
iframe whose only button says "schliessen". -/
theorem consent_absent_returns_false_witness :
    Reise.dismiss_cookie_banner noBannerPage = false :=
  consent_absent_returns_false noBannerPage (fun _ _ => rfl) (by decide)
